import Mathlib

/-!
Shallow embedding of the core of the `real-estate` repository:
the application lifecycle controllers
(`src/server/src/controllers/applicationControllers.ts`), the property
search filter composer (`getProperties`), and the tenant/manager
controllers that resolve stored geometry into longitude/latitude pairs.

Dates are modelled at day granularity as (year, month, day) triples with
JavaScript `Date` normalization semantics for `setMonth`/`setFullYear`
(day overflow rolls into the following month).  Machine floats appearing
only as parsed query parameters are modelled by `JsNum` (a number or
NaN); coordinates and the radius constant are rationals.
-/

namespace RealEstate

/-- Calendar date at day granularity.  Months are 1..12 and days 1..31 in
every normalized date (JavaScript `Date` objects are always normalized). -/
structure SimpleDate where
  year : Nat
  month : Nat
  day : Nat
deriving DecidableEq, Repr

/-- Gregorian leap-year test. -/
def isLeap (y : Nat) : Bool :=
  y % 4 == 0 && (y % 100 != 0 || y % 400 == 0)

/-- Number of days in month `m` of year `y` (months 1..12). -/
def daysInMonth (y m : Nat) : Nat :=
  if m == 2 then (if isLeap y then 29 else 28)
  else if m == 4 || m == 6 || m == 9 || m == 11 then 30
  else 31

/-- Linearized month count, used to compare dates and as a termination
measure: `12 * year + month`. -/
def monthIndex (d : SimpleDate) : Nat :=
  12 * d.year + d.month

/-- Day-granularity `≤` on dates.  For normalized dates (month 1..12)
this coincides with the numeric comparison of JavaScript `Date` values
truncated to days. -/
def dateLe (a b : SimpleDate) : Bool :=
  monthIndex a < monthIndex b || (monthIndex a == monthIndex b && a.day ≤ b.day)

/-- JavaScript `d.setMonth(d.getMonth() + 1)`: increment the month, carry
the year, and roll an overflowing day-of-month into the following month
(e.g. Jan 31 + 1 month = Mar 3). -/
def addOneMonth (dt : SimpleDate) : SimpleDate :=
  let y := if dt.month = 12 then dt.year + 1 else dt.year
  let m := if dt.month = 12 then 1 else dt.month + 1
  if dt.day > daysInMonth y m then
    let y2 := if m = 12 then y + 1 else y
    let m2 := if m = 12 then 1 else m + 1
    ⟨y2, m2, dt.day - daysInMonth y m⟩
  else
    ⟨y, m, dt.day⟩

/-- JavaScript `d.setFullYear(d.getFullYear() + 1)`: same month and day
in the next year, with Feb 29 rolling to Mar 1 in a non-leap year. -/
def addOneYear (dt : SimpleDate) : SimpleDate :=
  if dt.day > daysInMonth (dt.year + 1) dt.month then
    ⟨dt.year + 1, dt.month + 1, dt.day - daysInMonth (dt.year + 1) dt.month⟩
  else
    ⟨dt.year + 1, dt.month, dt.day⟩

theorem monthIndex_addOneMonth (dt : SimpleDate) :
    monthIndex dt < monthIndex (addOneMonth dt) := by
  unfold addOneMonth monthIndex
  by_cases h12 : dt.month = 12 <;> simp only [h12, if_true, if_false, reduceIte] <;>
    split <;> (try split) <;> simp <;> omega

theorem monthIndex_le_of_dateLe {a b : SimpleDate} (h : dateLe a b = true) :
    monthIndex a ≤ monthIndex b := by
  unfold dateLe at h
  simp only [Bool.or_eq_true, Bool.and_eq_true, decide_eq_true_eq, beq_iff_eq,
    Nat.lt_iff_add_one_le] at h
  omega

/-- Function `calculateNextPaymentDate` from `listApplications`
(`applicationControllers.ts`): starting from the lease's start date,
advance one month at a time while the candidate is `<=` today. -/
def calculateNextPaymentDate (today startDate : SimpleDate) : SimpleDate :=
  if dateLe startDate today then calculateNextPaymentDate today (addOneMonth startDate)
  else startDate
termination_by monthIndex today + 1 - monthIndex startDate
decreasing_by
  have h1 := monthIndex_le_of_dateLe (by assumption)
  have h2 := monthIndex_addOneMonth startDate
  omega

/-! ### Data model

Rows of the Prisma schema, restricted to the fields the controllers in
scope actually read or write.  The implicit many-to-many relation
between properties and tenants (the "resident" links created by
`property.update { tenants: { connect: ... } }`) is modelled as a list
of `(propertyId, tenantCognitoId)` pairs; Prisma's `connect` on an
already-connected implicit many-to-many pair is a no-op on the join
table, so insertion is guarded by membership. -/

/-- A Location row.  The native geometry column stores a point; it is
modelled as the `(longitude, latitude)` pair of rationals the
well-known-text value denotes. -/
structure Location where
  id : Nat
  address : String
  geom : ℚ × ℚ
deriving DecidableEq, Repr

/-- A Property row with its included Location. -/
structure Property where
  id : Nat
  pricePerMonth : Int
  securityDeposit : Int
  beds : Int
  baths : Int
  squareFeet : Int
  propertyType : String
  amenities : List String
  managerCognitoId : String
  location : Location
deriving DecidableEq, Repr

/-- A Lease row. -/
structure Lease where
  id : Nat
  startDate : SimpleDate
  endDate : SimpleDate
  rent : Int
  deposit : Int
  propertyId : Nat
  tenantCognitoId : String
deriving DecidableEq, Repr

/-- An Application row. -/
structure Application where
  id : Nat
  applicationDate : SimpleDate
  status : String
  name : String
  email : String
  phoneNumber : String
  message : String
  propertyId : Nat
  tenantCognitoId : String
  leaseId : Option Nat
deriving DecidableEq, Repr

/-- Database state touched by the controllers in scope.  `tenants`
holds the existing tenant cognito ids (the only tenant field the
application controllers dereference through `connect`); `residents` is
the property–tenant many-to-many relation; `nextLeaseId` and
`nextApplicationId` model the autoincrement sequences. -/
structure DB where
  properties : List Property
  tenants : List String
  leases : List Lease
  applications : List Application
  residents : List (Nat × String)
  nextLeaseId : Nat
  nextApplicationId : Nat
deriving DecidableEq, Repr

/-- Outcome of a request handler: an HTTP status code together with a
body on success or a message on failure. -/
inductive ApiResult (α : Type) where
  | success (status : Nat) (body : α)
  | failure (status : Nat) (message : String)
deriving DecidableEq, Repr

/-! ### Application lifecycle (`applicationControllers.ts`) -/

/-- Request body of `POST /applications` as destructured by
`createApplication`. -/
structure CreateApplicationRequest where
  applicationDate : SimpleDate
  status : String
  propertyId : Nat
  tenantCognitoId : String
  name : String
  email : String
  phoneNumber : String
  message : String
deriving DecidableEq, Repr

/-- Handler `createApplication`: look up the property (404 if absent), then in
one transaction create a Lease (start = today, end = one year later,
rent/deposit copied from the property) and an Application that connects
to it, passing the caller-supplied `status` through unchanged.  The
`tenant connect` inside the transaction fails when the tenant row is
absent; the transaction then aborts, leaving the database unchanged
(atomicity is the persistence layer's contract, out of scope per the
spec). -/
def createApplication (today : SimpleDate) (req : CreateApplicationRequest) (db : DB) :
    ApiResult Application × DB :=
  match db.properties.find? (fun p => p.id == req.propertyId) with
  | none => (.failure 404 "Property not found", db)
  | some property =>
    if req.tenantCognitoId ∈ db.tenants then
      let lease : Lease :=
        { id := db.nextLeaseId
          startDate := today
          endDate := addOneYear today
          rent := property.pricePerMonth
          deposit := property.securityDeposit
          propertyId := req.propertyId
          tenantCognitoId := req.tenantCognitoId }
      let application : Application :=
        { id := db.nextApplicationId
          applicationDate := req.applicationDate
          status := req.status
          name := req.name
          email := req.email
          phoneNumber := req.phoneNumber
          message := req.message
          propertyId := req.propertyId
          tenantCognitoId := req.tenantCognitoId
          leaseId := some lease.id }
      (.success 201 application,
        { db with
            leases := db.leases ++ [lease]
            applications := db.applications ++ [application]
            nextLeaseId := db.nextLeaseId + 1
            nextApplicationId := db.nextApplicationId + 1 })
    else
      (.failure 500 "Error creating application", db)

/-- Handler `updateApplicationStatus` (`Decide`): find the application (404 if
absent).  When the target status is `"Approved"`, unconditionally create
a new Lease from the property's current pricing, connect the tenant to
the property's resident set, and update the application's status and
lease reference; there is no check of the application's current status.
For any other target status, update the status field only.  Finally
return the refreshed application. -/
def updateApplicationStatus (today : SimpleDate) (id : Nat) (status : String) (db : DB) :
    ApiResult (Option Application) × DB :=
  match db.applications.find? (fun a => a.id == id) with
  | none => (.failure 404 "Application not found.", db)
  | some application =>
    if status = "Approved" then
      match db.properties.find? (fun p => p.id == application.propertyId) with
      | none => (.failure 500 "Error updating application status", db)
      | some property =>
        let newLease : Lease :=
          { id := db.nextLeaseId
            startDate := today
            endDate := addOneYear today
            rent := property.pricePerMonth
            deposit := property.securityDeposit
            propertyId := application.propertyId
            tenantCognitoId := application.tenantCognitoId }
        let residentLink := (application.propertyId, application.tenantCognitoId)
        let db2 : DB :=
          { db with
              leases := db.leases ++ [newLease]
              nextLeaseId := db.nextLeaseId + 1
              residents :=
                if residentLink ∈ db.residents then db.residents
                else db.residents ++ [residentLink]
              applications := db.applications.map (fun a =>
                if a.id == id then { a with status := status, leaseId := some newLease.id }
                else a) }
        (.success 200 (db2.applications.find? (fun a => a.id == id)), db2)
    else
      let db2 : DB :=
        { db with
            applications := db.applications.map (fun a =>
              if a.id == id then { a with status := status } else a) }
      (.success 200 (db2.applications.find? (fun a => a.id == id)), db2)

/-- JavaScript truthiness of an optional query-string value: present and
non-empty. -/
def truthy : Option String → Bool
  | none => false
  | some s => s ≠ ""

/-- The `where` filter of `listApplications`: empty unless both `userId`
and `userType` are truthy and `userType` is the literal `"tenant"` or
`"manager"`; an empty filter makes `findMany` return every application
row. -/
def listApplications (userId userType : Option String) (db : DB) : List Application :=
  if truthy userId && truthy userType then
    if userType = some "tenant" then
      db.applications.filter (fun a => a.tenantCognitoId == userId.getD "")
    else if userType = some "manager" then
      db.applications.filter (fun a =>
        match db.properties.find? (fun p => p.id == a.propertyId) with
        | some p => p.managerCognitoId == userId.getD ""
        | none => false)
    else
      db.applications
  else
    db.applications

/-! ### Filter query composer (`getProperties`, truncated source file)

The source builds a list of SQL `WHERE` fragments from the optional
query parameters; the fragments are modelled symbolically by
`SqlClause`.  JavaScript's `Number()` / `parseFloat()` coercion is
modelled by `jsNumber` on integer-formatted strings (anything else
coerces to NaN, the empty string to 0), and `new Date(string)` parsing
by `parseJsDate` on ISO `YYYY-MM-DD` strings. -/

/-- A JavaScript numeric value obtained from string coercion: a number
or NaN. -/
inductive JsNum where
  | nan
  | num (v : Int)
deriving DecidableEq, Repr

/-- Read a non-empty run of decimal digits as a number; `none` on any
non-digit character. -/
def parseNatDigits : List Char → Nat → Option Nat
  | [], acc => some acc
  | c :: rest, acc =>
    if 48 ≤ c.toNat ∧ c.toNat ≤ 57 then parseNatDigits rest (acc * 10 + (c.toNat - 48))
    else none

/-- Split a character list at a separator, JavaScript
`String.prototype.split` style (the empty list yields one empty group,
a trailing separator a trailing empty group). -/
def splitChar (sep : Char) : List Char → List (List Char)
  | [] => [[]]
  | c :: rest =>
    match splitChar sep rest with
    | [] => [[c]]
    | g :: gs => if c = sep then [] :: g :: gs else (c :: g) :: gs

/-- JavaScript `s.split(sep)` for a one-character separator. -/
def jsSplit (sep : Char) (s : String) : List String :=
  (splitChar sep s.data).map (fun cs => ⟨cs⟩)

/-- Decimal integer denoted by a string: an optional leading minus sign
followed by at least one digit. -/
def strToInt? (s : String) : Option Int :=
  match s.data with
  | [] => none
  | '-' :: [] => none
  | '-' :: c :: rest => (parseNatDigits (c :: rest) 0).map (fun n => -(n : Int))
  | cs => (parseNatDigits cs 0).map (fun n => (n : Int))

/-- Model of JavaScript `Number(s)` (and `parseFloat(s)` on the same
inputs): the denoted integer for integer-formatted strings, 0 for the
empty string, NaN otherwise. -/
def jsNumber (s : String) : JsNum :=
  if s = "" then .num 0
  else
    match strToInt? s with
    | some n => .num n
    | none => .nan

/-- Model of `new Date(s)` for ISO `YYYY-MM-DD` strings: `none` exactly
when JavaScript would produce an Invalid Date (`isNaN(date.getTime())`). -/
def parseJsDate (s : String) : Option SimpleDate :=
  match (splitChar '-' s.data).map (fun cs =>
      match cs with
      | [] => none
      | l => parseNatDigits l 0) with
  | [some y, some m, some d] =>
    if 1 ≤ m ∧ m ≤ 12 ∧ 1 ≤ d ∧ d ≤ daysInMonth y m then some ⟨y, m, d⟩ else none
  | _ => none

/-- Symbolic form of the raw SQL fragments pushed onto
`whereConditions` in `getProperties`. -/
inductive SqlClause where
  | idIn (ids : List JsNum)
  | priceGe (v : JsNum)
  | priceLe (v : JsNum)
  | bedsGe (v : JsNum)
  | bathsGe (v : JsNum)
  | sqftGe (v : JsNum)
  | sqftLe (v : JsNum)
  | typeEq (t : String)
  | amenitiesContain (xs : List String)
  | leaseStartLe (d : SimpleDate)
  | withinRadius (lng lat : JsNum) (degrees : ℚ)
deriving DecidableEq, Repr

/-- The query-string parameters `getProperties` destructures (the
availability parameter is spelled `avaiableFrom` in the source). -/
structure PropertyQueryParams where
  favoriteIds : Option String := none
  priceMin : Option String := none
  priceMax : Option String := none
  beds : Option String := none
  baths : Option String := none
  propertyType : Option String := none
  squareFeetMin : Option String := none
  squareFeetMax : Option String := none
  amenities : Option String := none
  avaiableFrom : Option String := none
  latitude : Option String := none
  longitude : Option String := none
deriving DecidableEq, Repr

/-- The fixed search radius of the geospatial clause, in degrees:
1000 km at 111 km per degree. -/
def searchRadiusDegrees : ℚ := 1000 / 111

/-- The list `whereConditions` as assembled by the sequence of conditional
`push` statements in `getProperties`, in source order. -/
def buildWhereConditions (p : PropertyQueryParams) : List SqlClause :=
  let c : List SqlClause := []
  let c := c ++ (if truthy p.favoriteIds then
    [.idIn ((jsSplit ',' (p.favoriteIds.getD "")).map jsNumber)] else [])
  let c := c ++ (if truthy p.priceMin then [.priceGe (jsNumber (p.priceMin.getD ""))] else [])
  let c := c ++ (if truthy p.priceMax then [.priceLe (jsNumber (p.priceMax.getD ""))] else [])
  let c := c ++ (if truthy p.beds && p.beds != some "any" then
    [.bedsGe (jsNumber (p.beds.getD ""))] else [])
  let c := c ++ (if truthy p.baths && p.baths != some "any" then
    [.bathsGe (jsNumber (p.baths.getD ""))] else [])
  let c := c ++ (if truthy p.squareFeetMin then
    [.sqftGe (jsNumber (p.squareFeetMin.getD ""))] else [])
  let c := c ++ (if truthy p.squareFeetMax then
    [.sqftLe (jsNumber (p.squareFeetMax.getD ""))] else [])
  let c := c ++ (if truthy p.propertyType && p.propertyType != some "any" then
    [.typeEq (p.propertyType.getD "")] else [])
  let c := c ++ (if truthy p.amenities && p.amenities != some "any" then
    [.amenitiesContain (jsSplit ',' (p.amenities.getD ""))] else [])
  let c := c ++ (if truthy p.avaiableFrom && p.avaiableFrom != some "any" then
    (match parseJsDate (p.avaiableFrom.getD "") with
     | some d => [.leaseStartLe d]
     | none => [])
    else [])
  let c := c ++ (if truthy p.latitude && truthy p.longitude then
    [.withinRadius (jsNumber (p.longitude.getD "")) (jsNumber (p.latitude.getD ""))
      searchRadiusDegrees] else [])
  c

/-- Modelled from the spec: the source file of `getProperties` is
truncated after `whereConditions` is assembled (the raw query execution
and response shaping are missing from the repository snapshot), so
clause evaluation follows the spec's table.  Comparisons against NaN
are false. -/
def evalClause (db : DB) (p : Property) : SqlClause → Bool
  | .idIn ids => ids.contains (.num (p.id : Int))
  | .priceGe v => match v with | .nan => false | .num n => n ≤ p.pricePerMonth
  | .priceLe v => match v with | .nan => false | .num n => p.pricePerMonth ≤ n
  | .bedsGe v => match v with | .nan => false | .num n => n ≤ p.beds
  | .bathsGe v => match v with | .nan => false | .num n => n ≤ p.baths
  | .sqftGe v => match v with | .nan => false | .num n => n ≤ p.squareFeet
  | .sqftLe v => match v with | .nan => false | .num n => p.squareFeet ≤ n
  | .typeEq t => p.propertyType == t
  | .amenitiesContain xs => xs.all (fun x => p.amenities.contains x)
  | .leaseStartLe d => db.leases.any (fun l => l.propertyId == p.id && dateLe l.startDate d)
  | .withinRadius lng lat degrees =>
    match lng, lat with
    | .num a, .num b =>
      decide ((p.location.geom.1 - (a : ℚ)) ^ 2 + (p.location.geom.2 - (b : ℚ)) ^ 2 ≤
        degrees ^ 2)
    | _, _ => false

/-- A `{longitude, latitude}` pair as exposed in responses. -/
structure Coordinates where
  longitude : ℚ
  latitude : ℚ
deriving DecidableEq, Repr

/-- Model of `ST_asText` on the stored geometry followed by
`wktToGeoJSON` (an out-of-scope library per the spec): the stored point
`(lng, lat)` becomes the GeoJSON coordinate array `[lng, lat]`. -/
def wktCoordinateArray (geom : ℚ × ℚ) : List ℚ :=
  [geom.1, geom.2]

/-- A property search result: the property with its location's geometry
replaced by resolved coordinates. -/
structure PropertyOut where
  property : Property
  coordinates : Coordinates
deriving DecidableEq, Repr

/-- Modelled from the spec: the missing tail of `getProperties` combines
all present clauses with logical AND over the stored properties and
converts each record's stored geometry to a longitude/latitude pair. -/
def runPropertyQuery (db : DB) (clauses : List SqlClause) : List PropertyOut :=
  (db.properties.filter (fun p => clauses.all (evalClause db p))).map (fun p =>
    { property := p
      coordinates :=
        { longitude := (wktCoordinateArray p.location.geom).getD 0 0
          latitude := (wktCoordinateArray p.location.geom).getD 1 0 } })

/-- The whole `getProperties` request: assemble `whereConditions` from
the query parameters (no validation path exists, so no 4xx is ever
produced) and run the spec-modelled query. -/
def getProperties (db : DB) (params : PropertyQueryParams) : ApiResult (List PropertyOut) :=
  .success 200 (runPropertyQuery db (buildWhereConditions params))

/-! ### Geometry-resolving endpoints (`getManagerProperties`,
`getCurrentResidences`) -/

/-- Location as shaped in responses: stored fields with the geometry
replaced by resolved coordinates. -/
structure FormattedLocation where
  id : Nat
  address : String
  coordinates : Coordinates
deriving DecidableEq, Repr

/-- A property as returned by `getManagerProperties` and
`getCurrentResidences`. -/
structure PropertyWithLocationOut where
  property : Property
  location : FormattedLocation
deriving DecidableEq, Repr

/-- The per-property formatting step shared by `getManagerProperties`
and `getCurrentResidences`: read the WKT of the location's point,
convert to GeoJSON, and take index 0 as longitude and index 1 as
latitude. -/
def formatPropertyLocation (p : Property) : PropertyWithLocationOut :=
  let geoCoords := wktCoordinateArray p.location.geom
  { property := p
    location :=
      { id := p.location.id
        address := p.location.address
        coordinates := { longitude := geoCoords.getD 0 0, latitude := geoCoords.getD 1 0 } } }

/-- Handler `getManagerProperties`: the manager's properties with formatted
location data. -/
def getManagerProperties (cognitoId : String) (db : DB) : List PropertyWithLocationOut :=
  (db.properties.filter (fun p => p.managerCognitoId == cognitoId)).map formatPropertyLocation

/-- Handler `getCurrentResidences`: the properties whose resident set contains
the tenant, with formatted location data. -/
def getCurrentResidences (cognitoId : String) (db : DB) : List PropertyWithLocationOut :=
  (db.properties.filter (fun p => (p.id, cognitoId) ∈ db.residents)).map formatPropertyLocation

/-! ### Per-parameter clause contributions

One definition per query parameter (or required pair), giving the list
of clauses that parameter contributes to `whereConditions`.  Each list
is empty or a singleton; `buildWhereConditions` is proved equal to
their concatenation below. -/

/-- Clauses contributed by `favoriteIds`. -/
def favoriteIdsClauses (o : Option String) : List SqlClause :=
  if truthy o then [.idIn ((jsSplit ',' (o.getD "")).map jsNumber)] else []

/-- Clauses contributed by `priceMin`. -/
def priceMinClauses (o : Option String) : List SqlClause :=
  if truthy o then [.priceGe (jsNumber (o.getD ""))] else []

/-- Clauses contributed by `priceMax`. -/
def priceMaxClauses (o : Option String) : List SqlClause :=
  if truthy o then [.priceLe (jsNumber (o.getD ""))] else []

/-- Clauses contributed by `beds` (sentinel `"any"` disables). -/
def bedsClauses (o : Option String) : List SqlClause :=
  if truthy o && o != some "any" then [.bedsGe (jsNumber (o.getD ""))] else []

/-- Clauses contributed by `baths` (sentinel `"any"` disables). -/
def bathsClauses (o : Option String) : List SqlClause :=
  if truthy o && o != some "any" then [.bathsGe (jsNumber (o.getD ""))] else []

/-- Clauses contributed by `squareFeetMin`. -/
def squareFeetMinClauses (o : Option String) : List SqlClause :=
  if truthy o then [.sqftGe (jsNumber (o.getD ""))] else []

/-- Clauses contributed by `squareFeetMax`. -/
def squareFeetMaxClauses (o : Option String) : List SqlClause :=
  if truthy o then [.sqftLe (jsNumber (o.getD ""))] else []

/-- Clauses contributed by `propertyType` (sentinel `"any"` disables). -/
def propertyTypeClauses (o : Option String) : List SqlClause :=
  if truthy o && o != some "any" then [.typeEq (o.getD "")] else []

/-- Clauses contributed by `amenities` (sentinel `"any"` disables). -/
def amenitiesClauses (o : Option String) : List SqlClause :=
  if truthy o && o != some "any" then [.amenitiesContain (jsSplit ',' (o.getD ""))] else []

/-- Clauses contributed by `avaiableFrom` (sentinel `"any"` and parse
failures disable the clause silently). -/
def avaiableFromClauses (o : Option String) : List SqlClause :=
  if truthy o && o != some "any" then
    match parseJsDate (o.getD "") with
    | some d => [.leaseStartLe d]
    | none => []
  else []

/-- Clauses contributed by the `latitude`/`longitude` pair (both
required together). -/
def radiusClauses (lat lng : Option String) : List SqlClause :=
  if truthy lat && truthy lng then
    [.withinRadius (jsNumber (lng.getD "")) (jsNumber (lat.getD "")) searchRadiusDegrees]
  else []

/-! ### Helper lemmas -/

theorem calculateNextPaymentDate_step {today s : SimpleDate} (h : dateLe s today = true) :
    calculateNextPaymentDate today s = calculateNextPaymentDate today (addOneMonth s) := by
  rw [calculateNextPaymentDate]
  simp [h]

theorem calculateNextPaymentDate_stop {today s : SimpleDate} (h : dateLe s today = false) :
    calculateNextPaymentDate today s = s := by
  rw [calculateNextPaymentDate]
  simp [h]

/-- Fuel-indexed characterization of the payment-date loop: the result
is strictly after today and is the start date advanced by some number
of whole months. -/
theorem calculateNextPaymentDate_aux (today : SimpleDate) :
    ∀ n s, monthIndex today + 1 - monthIndex s ≤ n →
      dateLe (calculateNextPaymentDate today s) today = false ∧
      ∃ k, calculateNextPaymentDate today s = addOneMonth^[k] s := by
  intro n
  induction n with
  | zero =>
    intro s h
    have hle : dateLe s today = false := by
      cases h' : dateLe s today with
      | false => rfl
      | true => exact absurd (monthIndex_le_of_dateLe h') (by omega)
    rw [calculateNextPaymentDate_stop hle]
    exact ⟨hle, 0, rfl⟩
  | succ n ih =>
    intro s h
    cases h' : dateLe s today with
    | false =>
      rw [calculateNextPaymentDate_stop h']
      exact ⟨h', 0, rfl⟩
    | true =>
      rw [calculateNextPaymentDate_step h']
      have hmeas : monthIndex today + 1 - monthIndex (addOneMonth s) ≤ n := by
        have h1 := monthIndex_addOneMonth s
        have h2 := monthIndex_le_of_dateLe h'
        omega
      obtain ⟨h1, k, hk⟩ := ih (addOneMonth s) hmeas
      exact ⟨h1, k + 1, by rw [Function.iterate_succ_apply]; exact hk⟩

/-- Finding the keyed element after an id-preserving keyed update. -/
theorem find?_map_keyed_update (l : List Application) (id : Nat)
    (f : Application → Application) (hf : ∀ a, (f a).id = a.id) :
    (l.map (fun a => if a.id == id then f a else a)).find? (fun a => a.id == id) =
      (l.find? (fun a => a.id == id)).map (fun a => if a.id == id then f a else a) := by
  rw [List.find?_map]
  have hpg : ((fun a : Application => a.id == id) ∘ fun a => if a.id == id then f a else a) =
      (fun a : Application => a.id == id) := by
    funext a
    by_cases hx : a.id = id <;> simp [Function.comp, hx, hf]
  rw [hpg]

/-- The keyed element found after an id-preserving keyed update is the
updated original. -/
theorem find?_keyed_update_eq (l : List Application) (id : Nat)
    (f : Application → Application) (hf : ∀ a, (f a).id = a.id)
    (application : Application)
    (happ : l.find? (fun a => a.id == id) = some application) :
    (l.map (fun a => if a.id == id then f a else a)).find? (fun a => a.id == id) =
      some (f application) := by
  rw [find?_map_keyed_update l id f hf, happ]
  have hid : application.id = id := by
    have h := List.find?_some happ
    simpa using h
  simp [hid]

/-! ### Concrete fixtures -/

/-- A location fixture. -/
def sampleLocation : Location :=
  { id := 1, address := "1 Main St", geom := (10, 20) }

/-- A property fixture (id 1, price 1000, deposit 500). -/
def sampleProperty : Property :=
  { id := 1, pricePerMonth := 1000, securityDeposit := 500, beds := 2, baths := 1,
    squareFeet := 800, propertyType := "Apartment", amenities := ["Parking"],
    managerCognitoId := "m1", location := sampleLocation }

/-- The lease created when the fixture application was first approved. -/
def sampleLease : Lease :=
  { id := 1, startDate := ⟨2023, 1, 1⟩, endDate := ⟨2024, 1, 1⟩, rent := 1000,
    deposit := 500, propertyId := 1, tenantCognitoId := "t1" }

/-- An application fixture that is already Approved, referencing
`sampleLease`. -/
def approvedApplication : Application :=
  { id := 1, applicationDate := ⟨2023, 1, 1⟩, status := "Approved", name := "Alice",
    email := "alice@example.com", phoneNumber := "555", message := "",
    propertyId := 1, tenantCognitoId := "t1", leaseId := some 1 }

/-- Database fixture after a first successful approval: one Approved
application, its lease, and the resident link already present. -/
def approvedDb : DB :=
  { properties := [sampleProperty], tenants := ["t1"], leases := [sampleLease],
    applications := [approvedApplication], residents := [(1, "t1")],
    nextLeaseId := 2, nextApplicationId := 2 }

/-- The property of the spec's end-to-end example (id 5, price 1500,
deposit 500). -/
def property5 : Property :=
  { id := 5, pricePerMonth := 1500, securityDeposit := 500, beds := 3, baths := 2,
    squareFeet := 1200, propertyType := "Villa", amenities := [],
    managerCognitoId := "m1",
    location := { id := 5, address := "5 Ocean Dr", geom := (7, 9) } }

/-- A fresh database holding only `property5` and tenant `"t1"`. -/
def createDb : DB :=
  { properties := [property5], tenants := ["t1"], leases := [], applications := [],
    residents := [], nextLeaseId := 1, nextApplicationId := 1 }

/-- A creation request supplying status `"Denied"` instead of
`"Pending"`. -/
def deniedStatusRequest : CreateApplicationRequest :=
  { applicationDate := ⟨2024, 1, 1⟩, status := "Denied", propertyId := 5,
    tenantCognitoId := "t1", name := "Alice", email := "alice@example.com",
    phoneNumber := "555", message := "hello" }

/-- A creation request naming a property id (99) that does not exist in
`createDb`. -/
def missingPropertyRequest : CreateApplicationRequest :=
  { applicationDate := ⟨2024, 1, 1⟩, status := "Pending", propertyId := 99,
    tenantCognitoId := "t1", name := "Alice", email := "alice@example.com",
    phoneNumber := "555", message := "hello" }

/-! ### Claim C3: nextPaymentDate computation -/

/-- Shared evaluation of the payment-date loop on the spec's example. -/
theorem nextPayment_example_eval :
    calculateNextPaymentDate ⟨2023, 3, 10⟩ ⟨2023, 1, 15⟩ = ⟨2023, 3, 15⟩ := by
  have ha1 : addOneMonth ⟨2023, 1, 15⟩ = ⟨2023, 2, 15⟩ := by decide
  have ha2 : addOneMonth ⟨2023, 2, 15⟩ = ⟨2023, 3, 15⟩ := by decide
  have hd1 : dateLe ⟨2023, 1, 15⟩ ⟨2023, 3, 10⟩ = true := by decide
  have hd2 : dateLe ⟨2023, 2, 15⟩ ⟨2023, 3, 10⟩ = true := by decide
  have hd3 : dateLe ⟨2023, 3, 15⟩ ⟨2023, 3, 10⟩ = false := by decide
  rw [calculateNextPaymentDate_step hd1, ha1, calculateNextPaymentDate_step hd2, ha2,
    calculateNextPaymentDate_stop hd3]

/-- C3 counterexample: for lease start 2023-01-15 and current date
2023-03-10 the loop stops at 2023-03-15 — the first month-anchored date
strictly after today — not at 2023-04-15 as the claim's example says. -/
theorem c3_example_not_april :
    calculateNextPaymentDate ⟨2023, 3, 10⟩ ⟨2023, 1, 15⟩ = ⟨2023, 3, 15⟩ ∧
    (⟨2023, 3, 15⟩ : SimpleDate) ≠ ⟨2023, 4, 15⟩ :=
  ⟨nextPayment_example_eval, by decide⟩

/-- C3 (amended): `nextPaymentDate` starts from the lease's start date
and advances by one calendar month until the result is strictly after
the current date — the result is never `<=` today and is the start date
advanced by some whole number of months — and on the spec's example
(start 2023-01-15, today 2023-03-10) that date is 2023-03-15, not
2023-04-15. -/
theorem calculateNextPaymentDate_spec (today s : SimpleDate) :
    dateLe (calculateNextPaymentDate today s) today = false ∧
    (∃ k, calculateNextPaymentDate today s = addOneMonth^[k] s) ∧
    calculateNextPaymentDate ⟨2023, 3, 10⟩ ⟨2023, 1, 15⟩ = ⟨2023, 3, 15⟩ := by
  obtain ⟨h1, h2⟩ :=
    calculateNextPaymentDate_aux today (monthIndex today + 1 - monthIndex s) s (by omega)
  exact ⟨h1, h2, nextPayment_example_eval⟩

/-! ### Claim C1: Decide has no terminal-state guard -/

/-- C1 counterexample: on a database whose only application is already
Approved (its lease and resident link in place), invoking Decide with
target status Approved again creates a second Lease row. -/
theorem c1_reapprove_creates_second_lease :
    approvedApplication.status = "Approved" ∧
    approvedDb.leases.length = 1 ∧
    (updateApplicationStatus ⟨2023, 6, 1⟩ 1 "Approved" approvedDb).2.leases.length = 2 := by
  refine ⟨rfl, rfl, ?_⟩
  rfl

/-- C1 (amended): Decide performs no terminal-state check.  For any
existing application whose property exists, Decide with target Approved
always appends exactly one new Lease — even when the application is
already Approved; the resident connect is idempotent, so the resident
set is unchanged when the pair is already linked; and Decide with an
arbitrary target status overwrites the status field, so the Approved
and Denied states are not terminal. -/
theorem updateStatus_no_terminal_guard (today : SimpleDate) (db : DB) (id : Nat)
    (application : Application) (property : Property) (s : String)
    (happ : db.applications.find? (fun a => a.id == id) = some application)
    (hprop : db.properties.find? (fun p => p.id == application.propertyId) = some property) :
    (updateApplicationStatus today id "Approved" db).2.leases.length = db.leases.length + 1 ∧
    ((application.propertyId, application.tenantCognitoId) ∈ db.residents →
      (updateApplicationStatus today id "Approved" db).2.residents = db.residents) ∧
    ((updateApplicationStatus today id s db).2.applications.find?
        (fun a => a.id == id)).map (fun a => a.status) = some s := by
  refine ⟨?_, ?_, ?_⟩
  · simp [updateApplicationStatus, happ, hprop]
  · intro hmem
    simp [updateApplicationStatus, happ, hprop, hmem]
  · by_cases hs : s = "Approved"
    · subst hs
      have hresp := find?_keyed_update_eq db.applications id
        (fun a => { a with status := "Approved", leaseId := some db.nextLeaseId })
        (fun a => rfl) application happ
      simp only [updateApplicationStatus, happ, hprop, if_pos]
      rw [hresp]
      rfl
    · have hresp := find?_keyed_update_eq db.applications id
        (fun a => { a with status := s }) (fun a => rfl) application happ
      simp only [updateApplicationStatus, happ, if_neg hs]
      rw [hresp]
      rfl

/-- C1 witness: the amended theorem applied to the already-approved
fixture: a second lease appears and the resident set is unchanged, and a
Decide with status `"Pending"` moves the application out of Approved. -/
theorem updateStatus_no_terminal_guard_witness :
    (updateApplicationStatus ⟨2023, 6, 1⟩ 1 "Approved" approvedDb).2.leases.length =
      approvedDb.leases.length + 1 ∧
    (updateApplicationStatus ⟨2023, 6, 1⟩ 1 "Approved" approvedDb).2.residents =
      approvedDb.residents ∧
    ((updateApplicationStatus ⟨2023, 6, 1⟩ 1 "Pending" approvedDb).2.applications.find?
        (fun a => a.id == 1)).map (fun a => a.status) = some "Pending" := by
  obtain ⟨h1, h2, _⟩ :=
    updateStatus_no_terminal_guard ⟨2023, 6, 1⟩ approvedDb 1 approvedApplication
      sampleProperty "Approved" (by rfl) (by rfl)
  obtain ⟨_, _, h3⟩ :=
    updateStatus_no_terminal_guard ⟨2023, 6, 1⟩ approvedDb 1 approvedApplication
      sampleProperty "Pending" (by rfl) (by rfl)
  exact ⟨h1, h2 (by decide), h3⟩

/-! ### Claim C7: non-Approved Decide updates only the status field -/

/-- C7: for an existing application, Decide with any target status other
than `"Approved"` rewrites only that application's status field: every
other application field (including the lease reference), the Lease
table, the resident links, and the Property table are unchanged, and the
refreshed application is returned. -/
theorem updateStatus_nonApproved_frame (today : SimpleDate) (id : Nat) (s : String)
    (db : DB) (application : Application)
    (happ : db.applications.find? (fun a => a.id == id) = some application)
    (hs : s ≠ "Approved") :
    (updateApplicationStatus today id s db).2.applications =
      db.applications.map (fun a => if a.id == id then { a with status := s } else a) ∧
    (updateApplicationStatus today id s db).2.leases = db.leases ∧
    (updateApplicationStatus today id s db).2.residents = db.residents ∧
    (updateApplicationStatus today id s db).2.properties = db.properties ∧
    (updateApplicationStatus today id s db).1 =
      .success 200 (some { application with status := s }) := by
  have hresp := find?_keyed_update_eq db.applications id
    (fun a => { a with status := s }) (fun a => rfl) application happ
  refine ⟨?_, ?_, ?_, ?_, ?_⟩ <;>
    simp only [updateApplicationStatus, happ, if_neg hs]
  rw [hresp]

/-- C7 witness: denying the approved fixture application changes only
its status. -/
theorem updateStatus_nonApproved_frame_witness :
    (updateApplicationStatus ⟨2023, 6, 1⟩ 1 "Denied" approvedDb).2.applications =
      approvedDb.applications.map
        (fun a => if a.id == 1 then { a with status := "Denied" } else a) ∧
    (updateApplicationStatus ⟨2023, 6, 1⟩ 1 "Denied" approvedDb).2.leases =
      approvedDb.leases ∧
    (updateApplicationStatus ⟨2023, 6, 1⟩ 1 "Denied" approvedDb).2.residents =
      approvedDb.residents ∧
    (updateApplicationStatus ⟨2023, 6, 1⟩ 1 "Denied" approvedDb).2.properties =
      approvedDb.properties ∧
    (updateApplicationStatus ⟨2023, 6, 1⟩ 1 "Denied" approvedDb).1 =
      .success 200 (some { approvedApplication with status := "Denied" }) :=
  updateStatus_nonApproved_frame ⟨2023, 6, 1⟩ 1 "Denied" approvedDb approvedApplication
    (by rfl) (by decide)

/-! ### Claim C2: createApplication copies status from the caller -/

/-- C2 counterexample: a creation request against the existing property
5 (price 1500, deposit 500) supplying status `"Denied"` stores an
Application whose status is `"Denied"`, not `"Pending"`: the
caller-supplied status is passed through, not overridden. -/
theorem c2_status_not_forced_pending :
    (createApplication ⟨2024, 1, 1⟩ deniedStatusRequest createDb).2.applications.map
      (fun a => a.status) = ["Denied"] ∧
    ("Denied" : String) ≠ "Pending" := by
  exact ⟨rfl, by decide⟩

/-- C2 (amended): when the target property and the tenant exist,
`createApplication` creates a Lease with start = current date, end =
one year after it, and rent/deposit copied from the property's current
pricing, plus an Application referencing that Lease — but the
application's status is whatever status value the caller supplied, not
unconditionally `"Pending"`. -/
theorem createApplication_effects (today : SimpleDate) (req : CreateApplicationRequest)
    (db : DB) (property : Property)
    (hp : db.properties.find? (fun p => p.id == req.propertyId) = some property)
    (ht : req.tenantCognitoId ∈ db.tenants) :
    ∃ lease application,
      (createApplication today req db).1 = .success 201 application ∧
      (createApplication today req db).2.leases = db.leases ++ [lease] ∧
      (createApplication today req db).2.applications = db.applications ++ [application] ∧
      lease.startDate = today ∧
      lease.endDate = addOneYear today ∧
      lease.rent = property.pricePerMonth ∧
      lease.deposit = property.securityDeposit ∧
      lease.propertyId = req.propertyId ∧
      lease.tenantCognitoId = req.tenantCognitoId ∧
      application.status = req.status ∧
      application.leaseId = some lease.id ∧
      application.propertyId = req.propertyId ∧
      application.tenantCognitoId = req.tenantCognitoId ∧
      application.applicationDate = req.applicationDate := by
  simp only [createApplication, hp, if_pos ht]
  exact ⟨_, _, rfl, rfl, rfl, rfl, rfl, rfl, rfl, rfl, rfl, rfl, rfl, rfl, rfl, rfl⟩

/-- C2 witness: the amended theorem instantiated on the spec's
end-to-end example data (property 5, price 1500, deposit 500), with the
caller supplying status `"Denied"`. -/
theorem createApplication_effects_witness :
    ∃ lease application,
      (createApplication ⟨2024, 1, 1⟩ deniedStatusRequest createDb).1 =
        .success 201 application ∧
      (createApplication ⟨2024, 1, 1⟩ deniedStatusRequest createDb).2.leases =
        createDb.leases ++ [lease] ∧
      (createApplication ⟨2024, 1, 1⟩ deniedStatusRequest createDb).2.applications =
        createDb.applications ++ [application] ∧
      lease.startDate = ⟨2024, 1, 1⟩ ∧
      lease.endDate = addOneYear ⟨2024, 1, 1⟩ ∧
      lease.rent = property5.pricePerMonth ∧
      lease.deposit = property5.securityDeposit ∧
      lease.propertyId = deniedStatusRequest.propertyId ∧
      lease.tenantCognitoId = deniedStatusRequest.tenantCognitoId ∧
      application.status = deniedStatusRequest.status ∧
      application.leaseId = some lease.id ∧
      application.propertyId = deniedStatusRequest.propertyId ∧
      application.tenantCognitoId = deniedStatusRequest.tenantCognitoId ∧
      application.applicationDate = deniedStatusRequest.applicationDate :=
  createApplication_effects ⟨2024, 1, 1⟩ deniedStatusRequest createDb property5
    (by rfl) (by decide)

/-! ### Claim C6: NotFound and atomicity of createApplication -/

/-- C6: `createApplication` against a non-existent property id responds
NotFound (404) and leaves the database unchanged; and in every case the
Lease and Application inserts are all-or-nothing — either both tables
are unchanged or each gains exactly one new row. -/
theorem createApplication_atomic (today : SimpleDate) (req : CreateApplicationRequest)
    (db : DB) :
    (db.properties.find? (fun p => p.id == req.propertyId) = none →
      (createApplication today req db).1 = .failure 404 "Property not found" ∧
      (createApplication today req db).2 = db) ∧
    (((createApplication today req db).2.leases = db.leases ∧
        (createApplication today req db).2.applications = db.applications) ∨
      (∃ lease application,
        (createApplication today req db).2.leases = db.leases ++ [lease] ∧
        (createApplication today req db).2.applications =
          db.applications ++ [application])) := by
  constructor
  · intro hnone
    simp [createApplication, hnone]
  · match hp : db.properties.find? (fun p => p.id == req.propertyId) with
    | none =>
      left
      simp [createApplication, hp]
    | some property =>
      by_cases ht : req.tenantCognitoId ∈ db.tenants
      · right
        exact ⟨{ id := db.nextLeaseId, startDate := today, endDate := addOneYear today,
                 rent := property.pricePerMonth, deposit := property.securityDeposit,
                 propertyId := req.propertyId, tenantCognitoId := req.tenantCognitoId },
               { id := db.nextApplicationId, applicationDate := req.applicationDate,
                 status := req.status, name := req.name, email := req.email,
                 phoneNumber := req.phoneNumber, message := req.message,
                 propertyId := req.propertyId, tenantCognitoId := req.tenantCognitoId,
                 leaseId := some db.nextLeaseId },
               by simp [createApplication, hp, if_pos ht],
               by simp [createApplication, hp, if_pos ht]⟩
      · left
        constructor <;> simp [createApplication, hp, if_neg ht]

/-- C6 witness: creating an application for the absent property id 99
responds 404 and leaves the database exactly as it was. -/
theorem createApplication_atomic_witness :
    (createApplication ⟨2024, 1, 1⟩ missingPropertyRequest createDb).1 =
      .failure 404 "Property not found" ∧
    (createApplication ⟨2024, 1, 1⟩ missingPropertyRequest createDb).2 = createDb :=
  (createApplication_atomic ⟨2024, 1, 1⟩ missingPropertyRequest createDb).1 (by rfl)

/-! ### Claim C10: listApplications with an empty filter returns all rows -/

/-- C10: when `userId` or `userType` is missing (or empty), or
`userType` is neither `"tenant"` nor `"manager"`, the `where` filter of
`listApplications` stays empty and every application in the database is
returned — no error and no empty list. -/
theorem listApplications_empty_filter (userId userType : Option String) (db : DB)
    (h : truthy userId = false ∨ truthy userType = false ∨
      (userType ≠ some "tenant" ∧ userType ≠ some "manager")) :
    listApplications userId userType db = db.applications := by
  unfold listApplications
  rcases h with h | h | ⟨h1, h2⟩
  · simp [h]
  · simp [h]
  · by_cases hu : (truthy userId && truthy userType) = true
    · simp [hu, h1, h2]
    · simp [hu]

/-- C10 witness: with an unrecognized `userType` of `"admin"`, the
fixture database's full application list is returned. -/
theorem listApplications_empty_filter_witness :
    listApplications (some "u1") (some "admin") approvedDb = approvedDb.applications :=
  listApplications_empty_filter (some "u1") (some "admin") approvedDb
    (Or.inr (Or.inr ⟨by decide, by decide⟩))

/-! ### Claim C9: geometry round-trip without axis swap -/

/-- C9: for a location whose geometry is stored as the point
`(lng, lat)`, the formatting step shared by `getManagerProperties` and
`getCurrentResidences` returns `{longitude := lng, latitude := lat}` —
index 0 of the GeoJSON coordinate array becomes longitude and index 1
latitude, with no axis swap — and both endpoints expose properties only
through this formatting, never the native geometry. -/
theorem coordinates_no_axis_swap (p : Property) (cognitoId : String) (db : DB) :
    (formatPropertyLocation p).location.coordinates =
      { longitude := p.location.geom.1, latitude := p.location.geom.2 } ∧
    getManagerProperties cognitoId db =
      (db.properties.filter (fun q => q.managerCognitoId == cognitoId)).map
        formatPropertyLocation ∧
    getCurrentResidences cognitoId db =
      (db.properties.filter (fun q => (q.id, cognitoId) ∈ db.residents)).map
        formatPropertyLocation := by
  refine ⟨?_, rfl, rfl⟩
  simp [formatPropertyLocation, wktCoordinateArray]

/-! ### Claim C4: malformed numeric filters are coerced, not rejected -/

/-- C4: the code does not reject malformed numeric filter values: a
`priceMin` of `"abc"` is coerced by `Number()` to NaN and still
contributes a predicate clause, and `getProperties` has no client-error
path at all — for every database it responds 200 with the (empty,
because nothing satisfies a NaN comparison) result, rather than failing
with a 4xx as the claim requires. -/
theorem priceMin_malformed_not_rejected :
    buildWhereConditions { priceMin := some "abc" } = [SqlClause.priceGe JsNum.nan] ∧
    ∀ db : DB, getProperties db { priceMin := some "abc" } =
      ApiResult.success 200 (runPropertyQuery db [SqlClause.priceGe JsNum.nan]) := by
  have hb : buildWhereConditions { priceMin := some "abc" } =
      [SqlClause.priceGe JsNum.nan] := by decide
  refine ⟨hb, fun db => ?_⟩
  rw [getProperties, hb]

/-! ### Claim C5: composition of the filter query -/

/-- C5 counterexample: `avaiableFrom = "any"` is a present (truthy)
parameter that contributes no predicate clause, although the claim's
sentinel exception list covers only beds, baths, propertyType, and
amenities; likewise a latitude without a longitude contributes no
clause. -/
theorem c5_present_param_without_clause :
    truthy (some "any") = true ∧
    buildWhereConditions { avaiableFrom := some "any" } = [] ∧
    truthy (some "40") = true ∧
    buildWhereConditions { latitude := some "40" } = [] := by
  decide

/-- C5 (amended): `whereConditions` is exactly the concatenation of the
per-parameter contributions — each absent parameter contributes no
clause and each present one at most one clause (`"any"` disables beds,
baths, propertyType, amenities, and also availableFrom; an unparseable
availableFrom contributes none; latitude and longitude contribute a
single clause only together) — all present clauses are evaluated as a
logical AND over the stored properties, and each returned record's
stored geometry is converted to a `{longitude, latitude}` pair. -/
theorem getProperties_composition (params : PropertyQueryParams) (db : DB) :
    buildWhereConditions params =
      favoriteIdsClauses params.favoriteIds ++ priceMinClauses params.priceMin ++
        priceMaxClauses params.priceMax ++ bedsClauses params.beds ++
        bathsClauses params.baths ++ squareFeetMinClauses params.squareFeetMin ++
        squareFeetMaxClauses params.squareFeetMax ++
        propertyTypeClauses params.propertyType ++ amenitiesClauses params.amenities ++
        avaiableFromClauses params.avaiableFrom ++
        radiusClauses params.latitude params.longitude ∧
    (∀ o, (favoriteIdsClauses o).length ≤ 1) ∧
    (∀ o, (priceMinClauses o).length ≤ 1) ∧
    (∀ o, (priceMaxClauses o).length ≤ 1) ∧
    (∀ o, (bedsClauses o).length ≤ 1) ∧
    (∀ o, (bathsClauses o).length ≤ 1) ∧
    (∀ o, (squareFeetMinClauses o).length ≤ 1) ∧
    (∀ o, (squareFeetMaxClauses o).length ≤ 1) ∧
    (∀ o, (propertyTypeClauses o).length ≤ 1) ∧
    (∀ o, (amenitiesClauses o).length ≤ 1) ∧
    (∀ o, (avaiableFromClauses o).length ≤ 1) ∧
    (∀ o o2, (radiusClauses o o2).length ≤ 1) ∧
    getProperties db params =
      ApiResult.success 200
        ((db.properties.filter
            (fun p => (buildWhereConditions params).all (evalClause db p))).map
          (fun p =>
            { property := p
              coordinates :=
                { longitude := p.location.geom.1, latitude := p.location.geom.2 } })) := by
  refine ⟨?_, ?_, ?_, ?_, ?_, ?_, ?_, ?_, ?_, ?_, ?_, ?_, ?_⟩
  · simp only [buildWhereConditions, favoriteIdsClauses, priceMinClauses, priceMaxClauses,
      bedsClauses, bathsClauses, squareFeetMinClauses, squareFeetMaxClauses,
      propertyTypeClauses, amenitiesClauses, avaiableFromClauses, radiusClauses,
      List.nil_append, List.append_assoc]
  · intro o; unfold favoriteIdsClauses; split <;> simp
  · intro o; unfold priceMinClauses; split <;> simp
  · intro o; unfold priceMaxClauses; split <;> simp
  · intro o; unfold bedsClauses; split <;> simp
  · intro o; unfold bathsClauses; split <;> simp
  · intro o; unfold squareFeetMinClauses; split <;> simp
  · intro o; unfold squareFeetMaxClauses; split <;> simp
  · intro o; unfold propertyTypeClauses; split <;> simp
  · intro o; unfold amenitiesClauses; split <;> simp
  · intro o; unfold avaiableFromClauses; split <;> (try split) <;> simp
  · intro o o2; unfold radiusClauses; split <;> simp
  · simp [getProperties, runPropertyQuery, wktCoordinateArray]

/-! ### Claim C8: the availableFrom filter -/

/-- C8: an `avaiableFrom` value of `"any"`, or one that fails to parse
as a date, contributes no predicate clause and causes no error (the
handler still responds 200); a value parsing to date `d` contributes
exactly the clause requiring at least one lease on the property with
start date on or before `d`, and that clause evaluates as such an
existence check over the Lease table. -/
theorem avaiableFrom_filter_semantics (s : String) (d : SimpleDate) (db : DB)
    (p : Property) :
    avaiableFromClauses (some "any") = [] ∧
    avaiableFromClauses none = [] ∧
    (parseJsDate s = none → avaiableFromClauses (some s) = []) ∧
    (parseJsDate s = some d → avaiableFromClauses (some s) = [SqlClause.leaseStartLe d]) ∧
    evalClause db p (SqlClause.leaseStartLe d) =
      db.leases.any (fun l => l.propertyId == p.id && dateLe l.startDate d) ∧
    getProperties db { avaiableFrom := some s } =
      ApiResult.success 200
        (runPropertyQuery db (buildWhereConditions { avaiableFrom := some s })) := by
  refine ⟨by decide, by decide, ?_, ?_, rfl, rfl⟩
  · intro hnone
    unfold avaiableFromClauses
    split
    · simp only [Option.getD_some]
      rw [hnone]
    · rfl
  · intro hsome
    have hne : s ≠ "any" := by
      intro hcontra
      rw [hcontra] at hsome
      have hnone : parseJsDate "any" = none := by decide
      rw [hnone] at hsome
      cases hsome
    have hne2 : s ≠ "" := by
      intro hcontra
      rw [hcontra] at hsome
      have hnone : parseJsDate "" = none := by decide
      rw [hnone] at hsome
      cases hsome
    unfold avaiableFromClauses
    have htr : (truthy (some s) && some s != some "any") = true := by
      simp [truthy, hne, hne2]
    rw [if_pos htr]
    simp only [Option.getD_some]
    rw [hsome]

/-- C8 witness: the unparseable value `"garbage"` contributes no clause,
while `"2024-01-01"` contributes exactly the lease-start clause for
2024-01-01. -/
theorem avaiableFrom_filter_semantics_witness :
    avaiableFromClauses (some "garbage") = [] ∧
    avaiableFromClauses (some "2024-01-01") =
      [SqlClause.leaseStartLe ⟨2024, 1, 1⟩] := by
  refine ⟨?_, ?_⟩
  · exact (avaiableFrom_filter_semantics "garbage" ⟨2024, 1, 1⟩ createDb
      property5).2.2.1 (by decide)
  · exact (avaiableFrom_filter_semantics "2024-01-01" ⟨2024, 1, 1⟩ createDb
      property5).2.2.2.1 (by decide)

end RealEstate
